import Mathlib

/-!
# users_counter: session counting service

A shallow embedding of `config.go`, `http_service.go` and the construction
path of `app.go`.

* Go `int` values (`Port`, `onlineUsers`) are `Int`; the one arithmetic
  operation of the program, `onlineUsers += 1`, wraps at 64 bits (`wrapInt`).
* `time.Duration` is an `Int` number of nanoseconds.
* The HTTP response writer is a record of the status line, the `Set-Cookie`
  headers and the body written so far.
* The third-party packages are not part of the repository.  What the handler
  needs from them is taken as the per-request environment `Env`: the result of
  decoding a cookie value, the result of encoding session values, and the
  identifier produced by `uuid.New()`.
-/

namespace UsersCounter

/-! ## Machine integers and durations -/

/-- Reduction of an integer to the range of a 64-bit Go `int`. -/
def wrapInt (x : Int) : Int := (x + 2 ^ 63) % 2 ^ 64 - 2 ^ 63

/-- Largest value of a 64-bit Go `int`. -/
def maxInt : Int := 2 ^ 63 - 1

/-- `time.Second`, in nanoseconds. -/
def Second : Int := 1000000000

/-- `time.Minute`, in nanoseconds. -/
def Minute : Int := 60 * Second

/-! ## config.go -/

/-- Errors that can occur during validation of configs. -/
inductive ConfigError where
  | ErrEmptyAppName
  | ErrEmptyLogLevel
  | ErrEmptyHost
  | ErrPortRangeExceeded
  deriving DecidableEq, Repr

/-- Text of each validation error, as passed to `errors.New`. -/
def ConfigError.Error : ConfigError → String
  | .ErrEmptyAppName => "app name should be non empty"
  | .ErrEmptyLogLevel => "log level should be non empty "
  | .ErrEmptyHost => "host should be non empty or be in IPv4 format"
  | .ErrPortRangeExceeded => "port should be in rage [1024..49151] inclusively"

/-- HTTPConfig is config for HTTP service. -/
structure HTTPConfig where
  Host : String
  Port : Int
  ShutdownTimeout : Int
  CacheInterval : Int
  deriving DecidableEq, Repr

/-- AppConfig is whole config for app (the logger value plays no part). -/
structure AppConfig where
  AppName : String
  HTTP : HTTPConfig
  LogLevel : String
  deriving DecidableEq, Repr

/-- The pieces of `strings.Split(s, ".")`, on the characters of `s`. -/
def splitDot : List Char → List (List Char)
  | [] => [[]]
  | c :: cs =>
    if c = '.' then [] :: splitDot cs
    else
      match splitDot cs with
      | [] => [[c]]
      | p :: ps => (c :: p) :: ps

/-- The host check of `HTTPConfig.Validate`: non-empty, four dot-separated parts. -/
def hostOk (host : String) : Bool :=
  !(host.data.length == 0 || (splitDot host.data).length != 4)

/-- Validate just validates http config (`none` is Go's `nil`). -/
def HTTPConfig.Validate (c : HTTPConfig) : Option ConfigError :=
  if c.Host.data.length == 0 || (splitDot c.Host.data).length != 4 then
    some .ErrEmptyHost
  else if c.Port < 1024 || c.Port > 49152 then
    some .ErrPortRangeExceeded
  else
    none

/-- Validate validates whole app config. -/
def AppConfig.Validate (c : AppConfig) : List ConfigError :=
  let errs : List ConfigError := []
  let errs := if c.AppName.data.length == 0 then errs ++ [.ErrEmptyAppName] else errs
  let errs :=
    match c.HTTP.Validate with
    | some err => errs ++ [err]
    | none => errs
  let errs := if c.LogLevel.data.length == 0 then errs ++ [.ErrEmptyLogLevel] else errs
  errs

/-! ## The cookie store and the response writer -/

/-- Message of the decode error that `countUsers` treats as expiry. -/
def errTimestampExpired : String := "securecookie: expired timestamp"

/-- Key/value pairs of a session (`session.Values`). -/
abbrev Values := List (String × String)

/-- Assignment `m[k] = v` on session values. -/
def Values.set : Values → String → String → Values
  | [], k, v => [(k, v)]
  | (k', v') :: rest, k, v =>
    if k' = k then (k, v) :: rest else (k', v') :: Values.set rest k v

/-- Cookie options carried by the store and copied to its sessions. -/
structure Options where
  Path : String
  MaxAge : Int
  deriving DecidableEq, Repr

/-- The cookie store: its key material and its options. -/
structure CookieStore where
  key : String
  options : Options
  deriving DecidableEq, Repr

/-- `sessions.NewCookieStore`: a store with the default thirty-day age. -/
def NewCookieStore (key : String) : CookieStore :=
  { key := key, options := { Path := "/", MaxAge := 86400 * 30 } }

/-- `CookieStore.MaxAge`: sets the maximum age, in seconds, of the store. -/
def CookieStore.MaxAge (s : CookieStore) (age : Int) : CookieStore :=
  { s with options := { s.options with MaxAge := age } }

/-- A session as the handler sees it. -/
structure Session where
  name : String
  values : Values
  options : Options
  isNew : Bool
  deriving DecidableEq, Repr

/-- `sessions.NewSession`: an empty session whose `IsNew` is the zero value. -/
def NewSession (_store : CookieStore) (name : String) : Session :=
  { name := name, values := [], options := { Path := "", MaxAge := 0 }, isNew := false }

/-- A `Set-Cookie` header. -/
structure Cookie where
  name : String
  value : String
  options : Options
  deriving DecidableEq, Repr

/-- The response under construction. `status = none` until the header is written. -/
structure ResponseWriter where
  status : Option Nat
  cookies : List Cookie
  body : String
  deriving DecidableEq, Repr

/-- The response writer handed to a handler. -/
def ResponseWriter.empty : ResponseWriter :=
  { status := none, cookies := [], body := "" }

/-- `http.StatusInternalServerError`. -/
def StatusInternalServerError : Nat := 500

/-- `http.StatusOK`. -/
def StatusOK : Nat := 200

/-- `w.WriteHeader(code)`: only the first call fixes the status. -/
def ResponseWriter.WriteHeader (w : ResponseWriter) (code : Nat) : ResponseWriter :=
  if w.status.isSome then w else { w with status := some code }

/-- `w.Write(b)`: writes the header with status 200 if none was written. -/
def ResponseWriter.Write (w : ResponseWriter) (b : String) : ResponseWriter :=
  let w1 := w.WriteHeader StatusOK
  { w1 with body := w1.body ++ b }

/-- `http.SetCookie(w, c)`: headers are frozen once the status is written. -/
def SetCookie (w : ResponseWriter) (c : Cookie) : ResponseWriter :=
  if w.status.isSome then w else { w with cookies := w.cookies ++ [c] }

/-- `http.Error(w, msg, code)`: status `code`, then the message and a newline. -/
def httpError (w : ResponseWriter) (msg : String) (code : Nat) : ResponseWriter :=
  (w.WriteHeader code).Write (msg ++ "\n")

/-- An inbound request: the remote address and the `__token` cookie, if any. -/
structure Request where
  RemoteAddr : String
  cookie : Option String
  deriving DecidableEq, Repr

/-- What the external packages answer while one request is handled. -/
structure Env where
  /-- Result of `securecookie.DecodeMulti` on a cookie value. -/
  decode : String → Except String Values
  /-- Result of `securecookie.EncodeMulti` on a session name and its values. -/
  encode : String → Values → Except String String
  /-- Result of `uuid.New().String()`. -/
  uuid : String

/-- `store.Get(r, name)`: a new session when the request has no cookie of that
name; the decoded, existing session when the cookie decodes; a new session
together with the decode error otherwise. -/
def CookieStore.Get (env : Env) (s : CookieStore) (r : Request) (name : String) :
    Session × Option String :=
  let session : Session := { NewSession s name with options := s.options, isNew := true }
  match r.cookie with
  | none => (session, none)
  | some c =>
    match env.decode c with
    | .ok vals => ({ session with values := vals, isNew := false }, none)
    | .error e => (session, some e)

/-- `session.Save(r, w)`: encodes the values and sets the cookie, or returns the
encoding error without touching the response. -/
def Session.Save (env : Env) (session : Session) (w : ResponseWriter) :
    ResponseWriter × Option String :=
  match env.encode session.name session.values with
  | .error e => (w, some e)
  | .ok encoded =>
    (SetCookie w { name := session.name, value := encoded, options := session.options }, none)

/-! ## http_service.go -/

/-- UserCounterService (the mutex is not part of the sequential state). -/
structure UserCounterService where
  onlineUsers : Int
  store : CookieStore
  CacheInterval : Int
  deriving DecidableEq, Repr

/-- HTTPService provides an http service. -/
structure HTTPService where
  config : HTTPConfig
  ucs : UserCounterService
  routes : List (String × String)
  deriving DecidableEq, Repr

/-- NewHTTPService creates a new http service; `sessionKey` is the value of
`os.Getenv("T_SESSION_KEY")`, empty when the variable is unset. The second
component is the returned error. -/
def NewHTTPService (config : HTTPConfig) (sessionKey : String) :
    HTTPService × Option String :=
  let store := NewCookieStore sessionKey
  let store := store.MaxAge 300
  let s : HTTPService :=
    { config := config
      ucs := { onlineUsers := 0, store := store, CacheInterval := config.CacheInterval }
      routes := [] }
  (s, none)

/-- Registers `GET /users`; never fails. -/
def HTTPService.initRoutes (s : HTTPService) : HTTPService × Option String :=
  ({ s with routes := s.routes ++ [("GET", "/users")] }, none)

/-- Stores a fresh identifier and the remote address in the session, saves it,
and counts one more user only if saving succeeded. -/
def UserCounterService.addToStore (env : Env) (ucs : UserCounterService)
    (w : ResponseWriter) (r : Request) (session : Session) :
    UserCounterService × ResponseWriter :=
  let session := { session with values := session.values.set "__id" env.uuid }
  let session := { session with values := session.values.set "__addr" r.RemoteAddr }
  match session.Save env w with
  | (w, some err) => (ucs, httpError w err StatusInternalServerError)
  | (w, none) => ({ ucs with onlineUsers := wrapInt (ucs.onlineUsers + 1) }, w)

/-- Creates a session named `__token` with the store's options and adds it. -/
def UserCounterService.updateStore (env : Env) (ucs : UserCounterService)
    (w : ResponseWriter) (r : Request) : UserCounterService × ResponseWriter :=
  let session := NewSession ucs.store "__token"
  let session := { session with options := ucs.store.options }
  ucs.addToStore env w r session

/-- The text `fmt.Sprintf("online users: %v", n)`. -/
def onlineUsersBody (n : Int) : String := "online users: " ++ toString n

/-- The handler of `GET /users`. -/
def HTTPService.countUsers (env : Env) (s : HTTPService) (w : ResponseWriter)
    (r : Request) : HTTPService × ResponseWriter :=
  match s.ucs.store.Get env r "__token" with
  | (_, some err) =>
    if err == errTimestampExpired then
      let (ucs, w) := s.ucs.updateStore env w r
      ({ s with ucs := ucs }, w)
    else
      (s, httpError w err StatusInternalServerError)
  | (session, none) =>
    let (ucs, w) :=
      if session.isNew then s.ucs.addToStore env w r session else (s.ucs, w)
    ({ s with ucs := ucs }, w.Write (onlineUsersBody ucs.onlineUsers))

/-- The service after handling the given requests one after the other, each
with its own response writer. -/
def runRequests (s : HTTPService) : List (Env × Request) → HTTPService
  | [] => s
  | (env, r) :: rest => runRequests (s.countUsers env ResponseWriter.empty r).1 rest

/-! ## app.go -/

/-- App is the struct that describes whole app. -/
structure App where
  config : AppConfig
  http : HTTPService
  deriving DecidableEq, Repr

/-- NewAppFrom creates new App and init all related to the App things.
`parseLevel` is the error, if any, of parsing the log level. -/
def NewAppFrom (parseLevel : String → Option String) (sessionKey : String)
    (config : AppConfig) : Except String App :=
  match parseLevel config.LogLevel with
  | some err => .error ("initializing logger: parsing log level: " ++ err)
  | none =>
    match NewHTTPService config.HTTP sessionKey with
    | (_, some err) => .error ("initializing http service: " ++ err)
    | (hs, none) =>
      match hs.initRoutes with
      | (_, some err) => .error ("initializing routes: " ++ err)
      | (hs, none) => .ok { config := config, http := hs }

/-! ## Vocabulary of the statements -/

/-- The values `addToStore` hands to the encoder: the session's values with a
fresh `__id` and the caller's `__addr`. -/
def stamped (env : Env) (r : Request) (vals : Values) : Values :=
  (vals.set "__id" env.uuid).set "__addr" r.RemoteAddr

/-- Outcome of saving the session that `countUsers` creates for a caller
without a usable cookie (name `__token`, no previous values). -/
def newSessionSave (env : Env) (r : Request) : Except String String :=
  env.encode "__token" (stamped env r [])

/-- The cookie that a successful save of a new session puts on the response. -/
def tokenCookie (s : HTTPService) (encoded : String) : Cookie :=
  { name := "__token", value := encoded, options := s.ucs.store.options }

/-- Default configuration of `NewApp`: host `0.0.0.0`, port 9000, ten seconds
of shutdown timeout, five minutes of cache interval. -/
def defaultHTTPConfig : HTTPConfig :=
  { Host := "0.0.0.0", Port := 9000, ShutdownTimeout := 10 * Second,
    CacheInterval := 5 * Minute }

/-- Default application configuration of `NewApp`. -/
def defaultAppConfig : AppConfig :=
  { AppName := "users_counter_app", HTTP := defaultHTTPConfig, LogLevel := "info" }

/-- An environment in which every cookie decodes and every save yields `c1`. -/
def envAllOk : Env :=
  { decode := fun _ => .ok [("__id", "u0"), ("__addr", "10.0.0.1:4000")]
    encode := fun _ _ => .ok "c1"
    uuid := "u1" }

/-- An environment in which decoding reports an expired timestamp. -/
def envExpired : Env :=
  { decode := fun _ => .error errTimestampExpired
    encode := fun _ _ => .ok "c2"
    uuid := "u2" }

/-- An environment in which decoding reports a bad signature. -/
def envForged : Env :=
  { decode := fun _ => .error "securecookie: the value is not valid"
    encode := fun _ _ => .ok "c3"
    uuid := "u3" }

/-- An environment of a store without key material: decoding and saving both
fail for want of a hash key. -/
def envKeyUnset : Env :=
  { decode := fun _ => .error "securecookie: hash key is not set"
    encode := fun _ _ => .error "securecookie: hash key is not set"
    uuid := "u5" }

/-- An environment in which decoding reports an expired timestamp and saving
fails. -/
def envNoKey : Env :=
  { decode := fun _ => .error errTimestampExpired
    encode := fun _ _ => .error "securecookie: hash key is not set"
    uuid := "u4" }

/-- A first-time request: no cookie. -/
def reqNoCookie : Request := { RemoteAddr := "10.0.0.1:4000", cookie := none }

/-- A request presenting the cookie value `c1`. -/
def reqWithCookie : Request := { RemoteAddr := "10.0.0.1:4000", cookie := some "c1" }

/-- The service right after construction with the default configuration. -/
def freshService : HTTPService := (NewHTTPService defaultHTTPConfig "secret").1

/-- As many first-time requests, each saved, as the largest `int`. -/
def maxIntRun : List (Env × Request) :=
  List.replicate 9223372036854775807 (envAllOk, reqNoCookie)

/-! ## Helper lemmas -/

theorem wrapInt_of_range (x : Int) (h0 : -(2 ^ 63) ≤ x) (h1 : x < 2 ^ 63) :
    wrapInt x = x := by
  unfold wrapInt
  have h : (x + 2 ^ 63) % 2 ^ 64 = x + 2 ^ 63 :=
    Int.emod_eq_of_lt (by omega) (by omega)
  rw [h]
  omega

theorem status_httpError (w : ResponseWriter) (msg : String) (code : Nat)
    (hw : w.status = none) : (httpError w msg code).status = some code := by
  simp [httpError, ResponseWriter.Write, ResponseWriter.WriteHeader, hw]

theorem cookies_httpError (w : ResponseWriter) (msg : String) (code : Nat) :
    (httpError w msg code).cookies = w.cookies := by
  unfold httpError ResponseWriter.Write ResponseWriter.WriteHeader
  by_cases h : w.status.isSome <;> simp [h]

theorem addToStore_of_save_error (env : Env) (ucs : UserCounterService)
    (w : ResponseWriter) (r : Request) (session : Session) (e : String)
    (hsave : env.encode session.name (stamped env r session.values) = .error e) :
    ucs.addToStore env w r session = (ucs, httpError w e StatusInternalServerError) := by
  unfold stamped at hsave
  simp [UserCounterService.addToStore, Session.Save, hsave]

theorem addToStore_of_save_ok (env : Env) (ucs : UserCounterService)
    (w : ResponseWriter) (r : Request) (session : Session) (c : String)
    (hsave : env.encode session.name (stamped env r session.values) = .ok c) :
    ucs.addToStore env w r session =
      ({ ucs with onlineUsers := wrapInt (ucs.onlineUsers + 1) },
        SetCookie w { name := session.name, value := c, options := session.options }) := by
  unfold stamped at hsave
  simp [UserCounterService.addToStore, Session.Save, hsave]

theorem Get_of_no_cookie (env : Env) (st : CookieStore) (r : Request) (name : String)
    (hr : r.cookie = none) :
    st.Get env r name =
      ({ name := name, values := [], options := st.options, isNew := true }, none) := by
  simp [CookieStore.Get, NewSession, hr]

theorem Get_of_decode_error (env : Env) (st : CookieStore) (r : Request) (name c e : String)
    (hr : r.cookie = some c) (hd : env.decode c = .error e) :
    st.Get env r name =
      ({ name := name, values := [], options := st.options, isNew := true }, some e) := by
  simp [CookieStore.Get, NewSession, hr, hd]

theorem Get_of_decode_ok (env : Env) (st : CookieStore) (r : Request) (name c : String)
    (vals : Values) (hr : r.cookie = some c) (hd : env.decode c = .ok vals) :
    st.Get env r name =
      ({ name := name, values := vals, options := st.options, isNew := false }, none) := by
  simp [CookieStore.Get, NewSession, hr, hd]

/-- The path of a caller without cookie whose session is saved. -/
theorem countUsers_new_ok (env : Env) (s : HTTPService) (w : ResponseWriter) (r : Request)
    (c : String) (hr : r.cookie = none) (hsave : newSessionSave env r = .ok c) :
    s.countUsers env w r =
      ({ s with ucs := { s.ucs with onlineUsers := wrapInt (s.ucs.onlineUsers + 1) } },
        (SetCookie w (tokenCookie s c)).Write
          (onlineUsersBody (wrapInt (s.ucs.onlineUsers + 1)))) := by
  unfold HTTPService.countUsers
  rw [Get_of_no_cookie env _ r _ hr]
  simp only [if_true]
  rw [addToStore_of_save_ok env s.ucs w r
    { name := "__token", values := [], options := s.ucs.store.options, isNew := true } c hsave]
  rfl

/-- The path of a caller without cookie whose session cannot be saved. -/
theorem countUsers_new_error (env : Env) (s : HTTPService) (w : ResponseWriter) (r : Request)
    (e : String) (hr : r.cookie = none) (hsave : newSessionSave env r = .error e) :
    s.countUsers env w r =
      (s, (httpError w e StatusInternalServerError).Write
        (onlineUsersBody s.ucs.onlineUsers)) := by
  unfold HTTPService.countUsers
  rw [Get_of_no_cookie env _ r _ hr]
  simp only [if_true]
  rw [addToStore_of_save_error env s.ucs w r
    { name := "__token", values := [], options := s.ucs.store.options, isNew := true } e hsave]

/-- The path of a caller whose cookie decodes. -/
theorem countUsers_existing (env : Env) (s : HTTPService) (w : ResponseWriter) (r : Request)
    (session : Session) (hget : s.ucs.store.Get env r "__token" = (session, none))
    (hnew : session.isNew = false) :
    s.countUsers env w r = (s, w.Write (onlineUsersBody s.ucs.onlineUsers)) := by
  unfold HTTPService.countUsers
  rw [hget]
  simp [hnew]

/-- The path of a caller whose cookie is expired and whose new session is saved. -/
theorem countUsers_expired_ok (env : Env) (s : HTTPService) (w : ResponseWriter)
    (r : Request) (c0 c : String) (hr : r.cookie = some c0)
    (hd : env.decode c0 = .error errTimestampExpired)
    (hsave : newSessionSave env r = .ok c) :
    s.countUsers env w r =
      ({ s with ucs := { s.ucs with onlineUsers := wrapInt (s.ucs.onlineUsers + 1) } },
        SetCookie w (tokenCookie s c)) := by
  unfold HTTPService.countUsers
  rw [Get_of_decode_error env _ r _ c0 _ hr hd]
  simp only [beq_self_eq_true, if_true, UserCounterService.updateStore, NewSession]
  rw [addToStore_of_save_ok env s.ucs w r
    { name := "__token", values := [], options := s.ucs.store.options, isNew := false } c hsave]
  rfl

/-- The path of a caller whose cookie is expired and whose new session cannot
be saved. -/
theorem countUsers_expired_error (env : Env) (s : HTTPService) (w : ResponseWriter)
    (r : Request) (c0 e : String) (hr : r.cookie = some c0)
    (hd : env.decode c0 = .error errTimestampExpired)
    (hsave : newSessionSave env r = .error e) :
    s.countUsers env w r = (s, httpError w e StatusInternalServerError) := by
  unfold HTTPService.countUsers
  rw [Get_of_decode_error env _ r _ c0 _ hr hd]
  simp only [beq_self_eq_true, if_true, UserCounterService.updateStore, NewSession]
  rw [addToStore_of_save_error env s.ucs w r
    { name := "__token", values := [], options := s.ucs.store.options, isNew := false } e hsave]

/-- The path of a caller whose cookie fails to decode for another reason. -/
theorem countUsers_decode_fault (env : Env) (s : HTTPService) (w : ResponseWriter)
    (r : Request) (session : Session) (err : String)
    (hget : s.ucs.store.Get env r "__token" = (session, some err))
    (herr : err ≠ errTimestampExpired) :
    s.countUsers env w r = (s, httpError w err StatusInternalServerError) := by
  unfold HTTPService.countUsers
  rw [hget]
  simp [herr]

theorem cookies_Write (w : ResponseWriter) (b : String) : (w.Write b).cookies = w.cookies := by
  unfold ResponseWriter.Write ResponseWriter.WriteHeader
  by_cases h : w.status.isSome <;> simp [h]

theorem status_Write_of_some (w : ResponseWriter) (b : String) (code : Nat)
    (hw : w.status = some code) : (w.Write b).status = some code := by
  simp [ResponseWriter.Write, ResponseWriter.WriteHeader, hw]

theorem body_httpError (w : ResponseWriter) (msg : String) (code : Nat) :
    (httpError w msg code).body = w.body ++ (msg ++ "\n") := by
  unfold httpError ResponseWriter.Write ResponseWriter.WriteHeader
  by_cases h : w.status.isSome <;> simp [h]

/-! ## Requests that present a valid session -/

/-- C1: when the cookie of a request decodes without error to an existing (not
new) session, `countUsers` leaves the service, and so `onlineUsers`, exactly as
it was and puts no cookie on the response. -/
theorem countUsers_valid_session_frame (env : Env) (s : HTTPService) (w : ResponseWriter)
    (r : Request) (session : Session)
    (hget : s.ucs.store.Get env r "__token" = (session, none))
    (hnew : session.isNew = false) :
    (s.countUsers env w r).1.ucs.onlineUsers = s.ucs.onlineUsers ∧
      (s.countUsers env w r).1 = s ∧
      (s.countUsers env w r).2.cookies = w.cookies := by
  rw [countUsers_existing env s w r session hget hnew]
  exact ⟨rfl, rfl, cookies_Write _ _⟩

theorem countUsers_valid_session_frame_witness :
    (freshService.countUsers envAllOk ResponseWriter.empty reqWithCookie).1.ucs.onlineUsers
        = freshService.ucs.onlineUsers ∧
      (freshService.countUsers envAllOk ResponseWriter.empty reqWithCookie).1 = freshService ∧
      (freshService.countUsers envAllOk ResponseWriter.empty reqWithCookie).2.cookies = [] :=
  countUsers_valid_session_frame envAllOk freshService ResponseWriter.empty reqWithCookie
    { name := "__token", values := [("__id", "u0"), ("__addr", "10.0.0.1:4000")],
      options := freshService.ucs.store.options, isNew := false }
    (by rfl) (by rfl)

/-! ## Requests whose cookie fails to decode -/

/-- C2 does not hold as stated: a request whose cookie fails verification with
the bad-signature error, on a fresh service where saving would succeed, gets
status 500 and no cookie, and `onlineUsers` stays 0 instead of becoming 1. -/
theorem countUsers_forged_cookie_not_absorbed :
    (freshService.countUsers envForged ResponseWriter.empty reqWithCookie).2.status
        = some StatusInternalServerError ∧
      (freshService.countUsers envForged ResponseWriter.empty reqWithCookie).2.cookies = [] ∧
      (freshService.countUsers envForged ResponseWriter.empty reqWithCookie).1.ucs.onlineUsers
        = 0 ∧
      (freshService.countUsers envForged ResponseWriter.empty reqWithCookie).1.ucs.onlineUsers
        ≠ freshService.ucs.onlineUsers + 1 := by
  decide

/-- C2, amended: when the cookie of a request fails to decode with an error
other than the expired-timestamp one, `countUsers` answers with status 500 and
the error text, puts no cookie on the response and leaves the service, and so
`onlineUsers`, unchanged. -/
theorem countUsers_decode_fault_internal_error (env : Env) (s : HTTPService)
    (w : ResponseWriter) (r : Request) (c err : String) (hw : w.status = none)
    (hr : r.cookie = some c) (hd : env.decode c = .error err)
    (herr : err ≠ errTimestampExpired) :
    (s.countUsers env w r).2.status = some StatusInternalServerError ∧
      (s.countUsers env w r).2.body = w.body ++ (err ++ "\n") ∧
      (s.countUsers env w r).2.cookies = w.cookies ∧
      (s.countUsers env w r).1 = s ∧
      (s.countUsers env w r).1.ucs.onlineUsers = s.ucs.onlineUsers := by
  rw [countUsers_decode_fault env s w r _ err
    (Get_of_decode_error env s.ucs.store r "__token" c err hr hd) herr]
  exact ⟨status_httpError w err _ hw, body_httpError w err _, cookies_httpError w err _,
    rfl, rfl⟩

theorem countUsers_decode_fault_internal_error_witness :
    ResponseWriter.empty.status = none ∧
      reqWithCookie.cookie = some "c1" ∧
      (freshService.countUsers envForged ResponseWriter.empty reqWithCookie).2.status
        = some StatusInternalServerError ∧
      (freshService.countUsers envForged ResponseWriter.empty reqWithCookie).1 = freshService :=
  have h := countUsers_decode_fault_internal_error envForged freshService ResponseWriter.empty
    reqWithCookie "c1" "securecookie: the value is not valid" rfl rfl rfl (by decide)
  ⟨rfl, rfl, h.1, h.2.2.2.1⟩

/-! ## The three-request scenario -/

/-- C3: on a fresh service, a request without cookie whose session is saved
gets the new cookie and makes `onlineUsers` 1; a second request presenting that
cookie, decoded as a valid session, leaves it at 1; a third request whose cookie
decodes with the expired-timestamp error gets a new cookie and makes it 2. -/
theorem scenario_new_valid_expired (config : HTTPConfig) (key : String)
    (env1 env2 env3 : Env) (r1 r2 r3 : Request) (c1 c3 : String) (vals : Values)
    (h1 : r1.cookie = none) (hs1 : newSessionSave env1 r1 = .ok c1)
    (h2 : r2.cookie = some c1) (hd2 : env2.decode c1 = .ok vals)
    (h3 : r3.cookie = some c1) (hd3 : env3.decode c1 = .error errTimestampExpired)
    (hs3 : newSessionSave env3 r3 = .ok c3) :
    (NewHTTPService config key).1.ucs.onlineUsers = 0 ∧
      (((NewHTTPService config key).1).countUsers env1 ResponseWriter.empty r1).2.cookies
        = [tokenCookie (NewHTTPService config key).1 c1] ∧
      (((NewHTTPService config key).1).countUsers env1 ResponseWriter.empty r1).1.ucs.onlineUsers
        = 1 ∧
      (runRequests (NewHTTPService config key).1 [(env1, r1), (env2, r2)]).ucs.onlineUsers
        = 1 ∧
      ((runRequests (NewHTTPService config key).1 [(env1, r1), (env2, r2)]).countUsers env3
          ResponseWriter.empty r3).2.cookies
        = [tokenCookie (NewHTTPService config key).1 c3] ∧
      (runRequests (NewHTTPService config key).1
          [(env1, r1), (env2, r2), (env3, r3)]).ucs.onlineUsers = 2 := by
  have e1 := countUsers_new_ok env1 (NewHTTPService config key).1 ResponseWriter.empty r1 c1 h1 hs1
  have e2 := fun s => countUsers_existing env2 s ResponseWriter.empty r2 _
    (Get_of_decode_ok env2 s.ucs.store r2 "__token" c1 vals h2 hd2) rfl
  have e3 := fun s => countUsers_expired_ok env3 s ResponseWriter.empty r3 c1 c3 h3 hd3 hs3
  simp only [runRequests, e1, e2, e3]
  refine ⟨rfl, ?_, ?_, ?_, ?_, ?_⟩
  · simp [SetCookie, ResponseWriter.Write, ResponseWriter.WriteHeader, ResponseWriter.empty]
  · show wrapInt ((0 : Int) + 1) = 1
    decide
  · show wrapInt ((0 : Int) + 1) = 1
    decide
  · simp [SetCookie, ResponseWriter.empty, tokenCookie]
  · show wrapInt (wrapInt ((0 : Int) + 1) + 1) = 2
    decide

theorem scenario_new_valid_expired_witness :
    reqNoCookie.cookie = none ∧
      newSessionSave envAllOk reqNoCookie = .ok "c1" ∧
      envExpired.decode "c1" = .error errTimestampExpired ∧
      (runRequests freshService [(envAllOk, reqNoCookie)]).ucs.onlineUsers = 1 ∧
      (runRequests freshService
          [(envAllOk, reqNoCookie), (envAllOk, reqWithCookie)]).ucs.onlineUsers = 1 ∧
      (runRequests freshService
          [(envAllOk, reqNoCookie), (envAllOk, reqWithCookie),
            (envExpired, reqWithCookie)]).ucs.onlineUsers = 2 :=
  have h := scenario_new_valid_expired defaultHTTPConfig "secret" envAllOk envAllOk envExpired
    reqNoCookie reqWithCookie reqWithCookie "c1" "c2"
    [("__id", "u0"), ("__addr", "10.0.0.1:4000")] rfl rfl rfl rfl rfl rfl rfl
  ⟨rfl, rfl, rfl, h.2.2.1, h.2.2.2.1, h.2.2.2.2.2⟩

/-! ## The response body -/

/-- On the two paths that reach the final write, the body reports the count
after any increment of this request. -/
theorem countUsers_body_new_or_valid (env : Env) (s : HTTPService) (w : ResponseWriter)
    (r : Request) :
    (∀ c, r.cookie = none → newSessionSave env r = .ok c →
        (s.countUsers env w r).2.body
          = w.body ++ onlineUsersBody (s.countUsers env w r).1.ucs.onlineUsers) ∧
      (∀ c vals, r.cookie = some c → env.decode c = .ok vals →
        (s.countUsers env w r).2.body
          = w.body ++ onlineUsersBody (s.countUsers env w r).1.ucs.onlineUsers) := by
  constructor
  · intro c hr hsave
    rw [countUsers_new_ok env s w r c hr hsave]
    unfold ResponseWriter.Write ResponseWriter.WriteHeader SetCookie
    by_cases h : w.status.isSome <;> simp [h]
  · intro c vals hr hd
    rw [countUsers_existing env s w r _
      (Get_of_decode_ok env s.ucs.store r "__token" c vals hr hd) rfl]
    unfold ResponseWriter.Write ResponseWriter.WriteHeader
    by_cases h : w.status.isSome <;> simp [h]

/-- On the expired path nothing is written to the body, whatever the count. -/
theorem countUsers_body_expired (env : Env) (s : HTTPService) (w : ResponseWriter)
    (r : Request) (c0 c : String) (hr : r.cookie = some c0)
    (hd : env.decode c0 = .error errTimestampExpired)
    (hsave : newSessionSave env r = .ok c) :
    (s.countUsers env w r).2.body = w.body ∧
      (s.countUsers env w r).1.ucs.onlineUsers = wrapInt (s.ucs.onlineUsers + 1) := by
  rw [countUsers_expired_ok env s w r c0 c hr hd hsave]
  refine ⟨?_, rfl⟩
  unfold SetCookie
  by_cases h : w.status.isSome <;> simp [h]

/-- C4, evaluated where the code departs from it: a request on a fresh service
whose cookie decodes with the expired-timestamp error is counted
(`onlineUsers` becomes 1) and gets the new cookie, but the handler returns
without writing: the body is empty, not the text `online users: 1`. -/
theorem countUsers_expired_empty_body :
    (freshService.countUsers envExpired ResponseWriter.empty reqWithCookie).1.ucs.onlineUsers
        = 1 ∧
      (freshService.countUsers envExpired ResponseWriter.empty reqWithCookie).2.cookies
        = [tokenCookie freshService "c2"] ∧
      (freshService.countUsers envExpired ResponseWriter.empty reqWithCookie).2.status = none ∧
      (freshService.countUsers envExpired ResponseWriter.empty reqWithCookie).2.body = "" ∧
      (freshService.countUsers envExpired ResponseWriter.empty reqWithCookie).2.body
        ≠ onlineUsersBody 1 ∧
      (freshService.countUsers envAllOk ResponseWriter.empty reqNoCookie).2.body
        = "online users: 1" := by
  decide

/-! ## Failure to save a session -/

/-- C5: on a response whose header is not yet written, for every environment,
request and session: when encoding the session fails, `addToStore` answers with
status 500 and the error text, sets no cookie and leaves the counter service
unchanged; and `countUsers` gives the same status and an unchanged service,
`onlineUsers` included, both when it reaches `addToStore` for a caller without
cookie and when it reaches it for a caller whose cookie is expired. The three
facts are independent: each holds under its own condition alone. -/
theorem addToStore_save_failure_no_count (s : HTTPService) (w : ResponseWriter)
    (hw : w.status = none) :
    (∀ (env : Env) (r : Request) (session : Session) (e : String),
        env.encode session.name (stamped env r session.values) = .error e →
        (s.ucs.addToStore env w r session).2.status = some StatusInternalServerError ∧
          (s.ucs.addToStore env w r session).2.body = w.body ++ (e ++ "\n") ∧
          (s.ucs.addToStore env w r session).2.cookies = w.cookies ∧
          (s.ucs.addToStore env w r session).1 = s.ucs ∧
          (s.ucs.addToStore env w r session).1.onlineUsers = s.ucs.onlineUsers) ∧
      (∀ (env : Env) (r : Request) (e : String),
        r.cookie = none → newSessionSave env r = .error e →
        (s.countUsers env w r).2.status = some StatusInternalServerError ∧
          (s.countUsers env w r).2.cookies = w.cookies ∧
          (s.countUsers env w r).1 = s ∧
          (s.countUsers env w r).1.ucs.onlineUsers = s.ucs.onlineUsers) ∧
      (∀ (env : Env) (r : Request) (c e : String),
        r.cookie = some c → env.decode c = .error errTimestampExpired →
        newSessionSave env r = .error e →
        (s.countUsers env w r).2.status = some StatusInternalServerError ∧
          (s.countUsers env w r).2.cookies = w.cookies ∧
          (s.countUsers env w r).1 = s ∧
          (s.countUsers env w r).1.ucs.onlineUsers = s.ucs.onlineUsers) := by
  refine ⟨?_, ?_, ?_⟩
  · intro env r session e hsave
    rw [addToStore_of_save_error env s.ucs w r session e hsave]
    exact ⟨status_httpError w e _ hw, body_httpError w e _, cookies_httpError w e _,
      rfl, rfl⟩
  · intro env r e hr hsave
    rw [countUsers_new_error env s w r e hr hsave]
    refine ⟨status_Write_of_some _ _ _ (status_httpError w e _ hw), ?_, rfl, rfl⟩
    rw [cookies_Write, cookies_httpError]
  · intro env r c e hr hd hsave
    rw [countUsers_expired_error env s w r c e hr hd hsave]
    exact ⟨status_httpError w e _ hw, cookies_httpError w e _, rfl, rfl⟩

theorem addToStore_save_failure_no_count_witness :
    ResponseWriter.empty.status = none ∧
      newSessionSave envKeyUnset reqNoCookie = .error "securecookie: hash key is not set" ∧
      envKeyUnset.decode "c1" = .error "securecookie: hash key is not set" ∧
      newSessionSave envNoKey reqWithCookie = .error "securecookie: hash key is not set" ∧
      envNoKey.decode "c1" = .error errTimestampExpired ∧
      ((freshService.ucs.addToStore envKeyUnset ResponseWriter.empty reqNoCookie
          { name := "__token", values := [], options := freshService.ucs.store.options,
            isNew := true }).2.status = some StatusInternalServerError ∧
        (freshService.ucs.addToStore envKeyUnset ResponseWriter.empty reqNoCookie
          { name := "__token", values := [], options := freshService.ucs.store.options,
            isNew := true }).1.onlineUsers = 0) ∧
      ((freshService.countUsers envKeyUnset ResponseWriter.empty reqNoCookie).2.status
          = some StatusInternalServerError ∧
        (freshService.countUsers envKeyUnset ResponseWriter.empty
          reqNoCookie).1.ucs.onlineUsers = 0) ∧
      ((freshService.countUsers envNoKey ResponseWriter.empty reqWithCookie).2.status
          = some StatusInternalServerError ∧
        (freshService.countUsers envNoKey ResponseWriter.empty
          reqWithCookie).1.ucs.onlineUsers = 0) :=
  have h := addToStore_save_failure_no_count freshService ResponseWriter.empty rfl
  have ha := h.1 envKeyUnset reqNoCookie
    { name := "__token", values := [], options := freshService.ucs.store.options,
      isNew := true }
    "securecookie: hash key is not set" rfl
  have hn := h.2.1 envKeyUnset reqNoCookie "securecookie: hash key is not set" rfl rfl
  have he := h.2.2 envNoKey reqWithCookie "c1" "securecookie: hash key is not set"
    rfl rfl rfl
  ⟨rfl, rfl, rfl, rfl, rfl, ⟨ha.1, ha.2.2.2.2⟩, ⟨hn.1, hn.2.2.2⟩, ⟨he.1, he.2.2.2⟩⟩

/-! ## Construction -/

/-- The store of every constructed service has a maximum age of 300 seconds. -/
theorem NewHTTPService_maxAge (config : HTTPConfig) (key : String) :
    (NewHTTPService config key).1.ucs.store.options.MaxAge = 300 ∧
      (NewHTTPService config key).1.ucs.CacheInterval = config.CacheInterval ∧
      (NewHTTPService config key).1.ucs.onlineUsers = 0 := by
  exact ⟨rfl, rfl, rfl⟩

/-- C6, evaluated where the code departs from it: with a cache interval of one
minute the store of the created service still has a maximum age of 300
seconds; the configured 60 seconds only reach the unused `CacheInterval` field. -/
theorem NewHTTPService_maxAge_not_CacheInterval :
    (NewHTTPService { defaultHTTPConfig with CacheInterval := 1 * Minute }
        "secret").1.ucs.store.options.MaxAge = 300 ∧
      (NewHTTPService { defaultHTTPConfig with CacheInterval := 1 * Minute }
        "secret").1.ucs.CacheInterval / Second = 60 ∧
      (NewHTTPService { defaultHTTPConfig with CacheInterval := 1 * Minute }
        "secret").1.ucs.store.options.MaxAge
        ≠ ({ defaultHTTPConfig with CacheInterval := 1 * Minute } : HTTPConfig).CacheInterval
            / Second := by
  decide

/-- C7 does not hold as stated: with an empty `T_SESSION_KEY` the constructor
returns no error, and `NewAppFrom` succeeds on the default configuration. -/
theorem NewHTTPService_empty_key_no_error :
    (NewHTTPService defaultHTTPConfig "").2 = none ∧
      NewAppFrom (fun _ => none) "" defaultAppConfig
        = .ok { config := defaultAppConfig
                http := ((NewHTTPService defaultHTTPConfig "").1.initRoutes).1 } := by
  exact ⟨rfl, rfl⟩

/-- C7, amended: `NewHTTPService` returns a nil error for every configuration
and every value of `T_SESSION_KEY`, the empty one included, and `NewAppFrom`
then succeeds whenever the log level parses: the key plays no part in whether
the service starts. -/
theorem NewHTTPService_never_fails (parseLevel : String → Option String) (key : String)
    (config : AppConfig) (hlog : parseLevel config.LogLevel = none) :
    (NewHTTPService config.HTTP key).2 = none ∧
      (NewHTTPService config.HTTP key).1.ucs.store.key = key ∧
      NewAppFrom parseLevel key config
        = .ok { config := config, http := ((NewHTTPService config.HTTP key).1.initRoutes).1 } := by
  refine ⟨rfl, rfl, ?_⟩
  simp [NewAppFrom, hlog, NewHTTPService, HTTPService.initRoutes]

theorem NewHTTPService_never_fails_witness :
    (NewHTTPService defaultAppConfig.HTTP "").2 = none ∧
      NewAppFrom (fun _ => none) "" defaultAppConfig
        = .ok { config := defaultAppConfig
                http := ((NewHTTPService defaultAppConfig.HTTP "").1.initRoutes).1 } :=
  have h := NewHTTPService_never_fails (fun _ => none) "" defaultAppConfig rfl
  ⟨h.1, h.2.2⟩

/-! ## Validation of the port -/

/-- What `HTTPConfig.Validate` accepts: a good host and a port from 1024 to
49152, both ends included. -/
theorem Validate_eq_none_iff (c : HTTPConfig) :
    c.Validate = none ↔ hostOk c.Host = true ∧ 1024 ≤ c.Port ∧ c.Port ≤ 49152 := by
  unfold HTTPConfig.Validate hostOk
  by_cases hh : (c.Host.data.length == 0 || (splitDot c.Host.data).length != 4) = true
  · rw [if_pos hh, hh]
    simp
  · rw [if_neg hh]
    simp only [Bool.not_eq_true] at hh
    rw [hh]
    by_cases hp : (decide (c.Port < 1024) || decide (c.Port > 49152)) = true
    · rw [if_pos hp]
      simp only [Bool.or_eq_true, decide_eq_true_eq] at hp
      simp only [Bool.not_false, true_and, reduceCtorEq, false_iff]
      omega
    · rw [if_neg hp]
      simp only [Bool.or_eq_true, decide_eq_true_eq, not_or, not_lt] at hp
      simp only [Bool.not_false, true_and, true_iff]
      omega

/-- C8, evaluated where the code departs from it: with the default host, port
49152 passes validation, while 49153 and 1023 are rejected with
`ErrPortRangeExceeded` and 1024 and 49151 pass. -/
theorem Validate_accepts_port_49152 :
    ({ defaultHTTPConfig with Port := 49152 } : HTTPConfig).Validate = none ∧
      ({ defaultHTTPConfig with Port := 49153 } : HTTPConfig).Validate
        = some .ErrPortRangeExceeded ∧
      ({ defaultHTTPConfig with Port := 1023 } : HTTPConfig).Validate
        = some .ErrPortRangeExceeded ∧
      ({ defaultHTTPConfig with Port := 1024 } : HTTPConfig).Validate = none ∧
      ({ defaultHTTPConfig with Port := 49151 } : HTTPConfig).Validate = none ∧
      hostOk defaultHTTPConfig.Host = true := by
  decide

/-! ## The counter over a run of requests -/

/-- One request either leaves the counter alone or moves it to the wrapped
successor, and the latter only after a successful save whose cookie is the one
set on the response. -/
theorem countUsers_count_cases (env : Env) (s : HTTPService) (w : ResponseWriter)
    (r : Request) :
    (s.countUsers env w r).1.ucs.onlineUsers = s.ucs.onlineUsers ∨
      ((s.countUsers env w r).1.ucs.onlineUsers = wrapInt (s.ucs.onlineUsers + 1) ∧
        ∃ c, newSessionSave env r = .ok c ∧
          (s.countUsers env w r).2.cookies = (SetCookie w (tokenCookie s c)).cookies) := by
  cases hr : r.cookie with
  | none =>
    cases hsave : newSessionSave env r with
    | error e =>
      left
      rw [countUsers_new_error env s w r e hr hsave]
    | ok c =>
      right
      rw [countUsers_new_ok env s w r c hr hsave]
      exact ⟨rfl, c, rfl, cookies_Write _ _⟩
  | some c0 =>
    cases hd : env.decode c0 with
    | ok vals =>
      left
      rw [countUsers_existing env s w r _
        (Get_of_decode_ok env s.ucs.store r "__token" c0 vals hr hd) rfl]
    | error err =>
      by_cases herr : err = errTimestampExpired
      · subst herr
        cases hsave : newSessionSave env r with
        | error e =>
          left
          rw [countUsers_expired_error env s w r c0 e hr hd hsave]
        | ok c =>
          right
          rw [countUsers_expired_ok env s w r c0 c hr hd hsave]
          exact ⟨rfl, c, rfl, rfl⟩
      · left
        rw [countUsers_decode_fault env s w r _ err
          (Get_of_decode_error env s.ucs.store r "__token" c0 err hr hd) herr]

/-- Below the largest `int`, a run of requests moves the counter up by at most
its length and never down. -/
theorem runRequests_count_bounds :
    ∀ (rs : List (Env × Request)) (s : HTTPService), 0 ≤ s.ucs.onlineUsers →
      s.ucs.onlineUsers + rs.length ≤ maxInt →
      s.ucs.onlineUsers ≤ (runRequests s rs).ucs.onlineUsers ∧
        (runRequests s rs).ucs.onlineUsers ≤ s.ucs.onlineUsers + rs.length := by
  intro rs
  induction rs with
  | nil =>
    intro s _ _
    simp [runRequests]
  | cons x rest ih =>
    intro s h0 hmax
    obtain ⟨env, r⟩ := x
    simp only [List.length_cons, Nat.cast_add, Nat.cast_one, maxInt] at hmax
    have hstep : (s.countUsers env ResponseWriter.empty r).1.ucs.onlineUsers
          = s.ucs.onlineUsers ∨
        (s.countUsers env ResponseWriter.empty r).1.ucs.onlineUsers
          = s.ucs.onlineUsers + 1 := by
      rcases countUsers_count_cases env s ResponseWriter.empty r with h | ⟨h, _⟩
      · exact Or.inl h
      · right
        rw [h]
        exact wrapInt_of_range _ (by omega) (by omega)
    have hrec := ih (s.countUsers env ResponseWriter.empty r).1
    simp only [runRequests, List.length_cons, Nat.cast_add, Nat.cast_one]
    simp only [maxInt] at hrec
    rcases hstep with h | h
    · rw [h] at hrec
      have := hrec h0 (by omega)
      omega
    · rw [h] at hrec
      have := hrec (by omega) (by omega)
      omega

/-- Callers without cookie whose sessions are saved are counted one by one, as
long as the counter stays within the range of `int`. -/
theorem runRequests_replicate_new (env : Env) (r : Request) (c : String)
    (hr : r.cookie = none) (hsave : newSessionSave env r = .ok c) :
    ∀ (n : Nat) (s : HTTPService), 0 ≤ s.ucs.onlineUsers →
      s.ucs.onlineUsers + n ≤ maxInt →
      (runRequests s (List.replicate n (env, r))).ucs.onlineUsers = s.ucs.onlineUsers + n := by
  intro n
  induction n with
  | zero =>
    intro s _ _
    simp [runRequests]
  | succ k ih =>
    intro s h0 hmax
    simp only [Nat.cast_add, Nat.cast_one, maxInt] at hmax
    have hw : wrapInt (s.ucs.onlineUsers + 1) = s.ucs.onlineUsers + 1 :=
      wrapInt_of_range _ (by omega) (by omega)
    rw [List.replicate_succ]
    simp only [runRequests]
    rw [countUsers_new_ok env s ResponseWriter.empty r c hr hsave]
    have hrec := ih { s with ucs := { s.ucs with onlineUsers := wrapInt (s.ucs.onlineUsers + 1) } }
    simp only [maxInt, hw] at hrec
    have := hrec (by omega) (by omega)
    simp only [hw]
    rw [this]
    push_cast
    ring

/-- C9 does not hold as stated: the state in which `onlineUsers` is the largest
`int` is reached from the fresh service by handling `maxIntRun`, and the next
counted request makes the counter negative, neither equal to its value before
nor one greater. -/
theorem countUsers_wraps_at_maxInt :
    (runRequests freshService maxIntRun).ucs.onlineUsers = 9223372036854775807 ∧
      ((runRequests freshService maxIntRun).countUsers envAllOk ResponseWriter.empty
          reqNoCookie).1.ucs.onlineUsers = -9223372036854775808 ∧
      ¬ (((runRequests freshService maxIntRun).countUsers envAllOk ResponseWriter.empty
            reqNoCookie).1.ucs.onlineUsers
            = (runRequests freshService maxIntRun).ucs.onlineUsers ∨
          ((runRequests freshService maxIntRun).countUsers envAllOk ResponseWriter.empty
            reqNoCookie).1.ucs.onlineUsers
            = (runRequests freshService maxIntRun).ucs.onlineUsers + 1) ∧
      ¬ (0 ≤ ((runRequests freshService maxIntRun).countUsers envAllOk ResponseWriter.empty
            reqNoCookie).1.ucs.onlineUsers) := by
  have hrun := runRequests_replicate_new envAllOk reqNoCookie "c1" rfl rfl
    9223372036854775807 freshService (by decide) (by decide)
  have h0 : freshService.ucs.onlineUsers = 0 := rfl
  rw [h0] at hrun
  unfold maxIntRun
  generalize runRequests freshService
    (List.replicate 9223372036854775807 (envAllOk, reqNoCookie)) = s at hrun
  have hstep := countUsers_new_ok envAllOk s ResponseWriter.empty reqNoCookie "c1" rfl rfl
  rw [hstep]
  simp only [hrun]
  decide

/-- C9, amended: as long as `onlineUsers` is non-negative and below the largest
`int`, which holds in every state reached from a fresh service by fewer
requests than that, one request leaves the counter equal or exactly one
greater, never negative, and changes it only when the new session was saved
and its cookie set on the response. -/
theorem countUsers_count_step (config : HTTPConfig) (key : String)
    (rs : List (Env × Request)) (env : Env) (s : HTTPService) (w : ResponseWriter)
    (r : Request) (hlen : (rs.length : Int) < maxInt)
    (h0 : 0 ≤ s.ucs.onlineUsers) (hmax : s.ucs.onlineUsers < maxInt) :
    (0 ≤ (runRequests (NewHTTPService config key).1 rs).ucs.onlineUsers ∧
        (runRequests (NewHTTPService config key).1 rs).ucs.onlineUsers ≤ rs.length ∧
        (runRequests (NewHTTPService config key).1 rs).ucs.onlineUsers < maxInt) ∧
      ((s.countUsers env w r).1.ucs.onlineUsers = s.ucs.onlineUsers ∨
        (s.countUsers env w r).1.ucs.onlineUsers = s.ucs.onlineUsers + 1) ∧
      s.ucs.onlineUsers ≤ (s.countUsers env w r).1.ucs.onlineUsers ∧
      0 ≤ (s.countUsers env w r).1.ucs.onlineUsers ∧
      ((s.countUsers env w r).1.ucs.onlineUsers ≠ s.ucs.onlineUsers →
        ∃ c, newSessionSave env r = .ok c ∧
          (s.countUsers env w r).2.cookies = (SetCookie w (tokenCookie s c)).cookies) := by
  have hfresh : (NewHTTPService config key).1.ucs.onlineUsers = 0 := rfl
  have hb := runRequests_count_bounds rs (NewHTTPService config key).1
    (by rw [hfresh]) (by rw [hfresh]; omega)
  rw [hfresh] at hb
  simp only [maxInt] at hlen hmax
  refine ⟨⟨hb.1, by omega, by simp only [maxInt]; omega⟩, ?_⟩
  rcases countUsers_count_cases env s w r with h | ⟨h, hc⟩
  · rw [h]
    exact ⟨Or.inl rfl, le_refl _, h0, fun hne => absurd rfl hne⟩
  · have hw : wrapInt (s.ucs.onlineUsers + 1) = s.ucs.onlineUsers + 1 :=
      wrapInt_of_range _ (by omega) (by omega)
    rw [hw] at h
    rw [h]
    exact ⟨Or.inr rfl, by omega, by omega, fun _ => hc⟩

theorem countUsers_count_step_witness :
    0 ≤ freshService.ucs.onlineUsers ∧
      freshService.ucs.onlineUsers < maxInt ∧
      (runRequests (NewHTTPService defaultHTTPConfig "secret").1
          [(envAllOk, reqNoCookie), (envAllOk, reqWithCookie)]).ucs.onlineUsers ≤ 2 ∧
      ((freshService.countUsers envAllOk ResponseWriter.empty reqNoCookie).1.ucs.onlineUsers
          = freshService.ucs.onlineUsers ∨
        (freshService.countUsers envAllOk ResponseWriter.empty reqNoCookie).1.ucs.onlineUsers
          = freshService.ucs.onlineUsers + 1) ∧
      0 ≤ (freshService.countUsers envAllOk ResponseWriter.empty reqNoCookie).1.ucs.onlineUsers :=
  have h := countUsers_count_step defaultHTTPConfig "secret"
    [(envAllOk, reqNoCookie), (envAllOk, reqWithCookie)] envAllOk freshService
    ResponseWriter.empty reqNoCookie (by decide) (by decide) (by decide)
  ⟨by decide, by decide, h.1.2.1, h.2.1, h.2.2.2.1⟩

end UsersCounter
